import Mathlib

/-!
Verification of the SQL chatbot app (`app.py`): a shallow embedding of its
session log, voice adapter, per-question pipeline and upload handler, with
theorems about the behaviours the specification describes.
-/

namespace Chatbot

/-- Role of a chat turn; the app only ever writes `"user"` and `"assistant"`
into the `role` field of the dictionaries stored in
`st.session_state.messages`. -/
inductive Role
  | user
  | assistant
  deriving DecidableEq

/-- One entry of `st.session_state.messages`:
`{"role": ..., "content": ...}`. -/
structure Turn where
  role : Role
  content : String
  deriving DecidableEq

/-- Embedding of app.py line 37:
`use_voice = os.getenv("USE_VOICE", "True") == "True"`.
The environment is modelled as a partial map from variable names to values;
`getD` is Python's `os.getenv` default. -/
def use_voice (env : String → Option String) : Bool :=
  ((env "USE_VOICE").getD "True") == "True"

/-- Outcome of the external call `recognizer.recognize_google(audio)`:
recognized text, `sr.UnknownValueError`, or `sr.RequestError`. -/
inductive RecognizeResult
  | ok (text : String)
  | unknownValue
  | requestError
  deriving DecidableEq

/-- Return value and observable effects of `get_voice_input`
(app.py lines 40-60): the returned text (if any), whether the microphone
was opened, and whether `st.warning` / `st.error` fired. -/
structure VoiceInputResult where
  result : Option String
  micAccessed : Bool
  warned : Bool
  errored : Bool
  deriving DecidableEq

/-- Embedding of `get_voice_input` (app.py lines 40-60). When the flag is
on, the microphone is opened and the recognition outcome is dispatched:
success returns the text, `UnknownValueError` warns and returns `None`,
`RequestError` reports an error and returns `None`. When the flag is off
the body is skipped entirely and `None` is returned. -/
def get_voice_input (useVoice : Bool) (rec : RecognizeResult) : VoiceInputResult :=
  if useVoice then
    match rec with
    | .ok q => ⟨some q, true, false, false⟩
    | .unknownValue => ⟨none, true, true, false⟩
    | .requestError => ⟨none, true, false, true⟩
  else
    ⟨none, false, false, false⟩

/-- Embedding of `speak_text` (app.py lines 63-70). `tts` is the outcome of
the pyttsx3 engine calls (which the function does not catch); the returned
`Bool` records whether audio playback was performed. When the flag is off
the body is skipped, no playback happens and no error can escape. -/
def speak_text (useVoice : Bool) (_text : String) (tts : Except String Unit) :
    Except String Bool :=
  if useVoice then
    match tts with
    | .ok _ => .ok true
    | .error e => .error e
  else
    .ok false

/-- app.py line 114: the `🎙 Speak` button is rendered only under
`if use_voice:`. -/
def voice_button_rendered (useVoice : Bool) : Bool :=
  useVoice

/-- Embedding of app.py lines 110-118: `user_question` starts as the typed
chat input; if voice is enabled and the button was clicked, a truthy
(non-`None`, non-empty) recognition result overwrites it. -/
def compute_user_question (useVoice : Bool) (typed : Option String)
    (clicked : Bool) (rec : RecognizeResult) : Option String :=
  if useVoice && clicked then
    match (get_voice_input useVoice rec).result with
    | some v => if v == "" then typed else some v
    | none => typed
  else
    typed

/-- app.py line 142: the fixed fallback text appended by the per-question
`except Exception` handler. Note the leading space in the source literal. -/
def error_message : String := " Ask more questions about your database."

/-- app.py line 130:
`f"Here is your SQL query:\n‵‵‵sql\n{query}\n‵‵‵"` (with backquotes). -/
def response_message (query : String) : String :=
  "Here is your SQL query:\n```sql\n" ++ query ++ "\n```"

/-- Outcomes of the external calls made inside the per-question `try` block:
`db.get_table_info()`, `sql_chain.invoke(...)`, `db.run(query)`, and the
pyttsx3 engine used by `speak_text`. An `error` value models the call
raising an exception with that text. -/
structure TurnOracle where
  get_table_info : Except String String
  invoke : String → String → Except String String
  run : String → Except String String
  tts : Except String Unit

/-- The body of the per-question `try` block (app.py lines 126-139), after
the user turn has already been appended. Returns the session log on normal
completion (`ok`) or the session log at the moment an exception was raised
(`error`): appends performed before the raising call persist. -/
def question_body (msgs : List Turn) (question : String) (useVoice : Bool)
    (o : TurnOracle) : Except (List Turn) (List Turn) :=
  match o.get_table_info with
  | .error _ => .error msgs
  | .ok schema =>
    match o.invoke schema question with
    | .error _ => .error msgs
    | .ok query =>
      let msgs := msgs ++ [⟨.assistant, response_message query⟩]
      match o.run query with
      | .error _ => .error msgs
      | .ok _result =>
        match speak_text useVoice ("Here is your SQL query: " ++ query) o.tts with
        | .error _ => .error msgs
        | .ok _ => .ok msgs

/-- Embedding of app.py lines 120-146 for a non-empty question: append the
user turn, run the `try` body, and on any exception append the fixed
fallback assistant turn (the `except Exception` handler, lines 141-146). -/
def process_question (msgs : List Turn) (question : String) (useVoice : Bool)
    (o : TurnOracle) : List Turn :=
  let msgs1 := msgs ++ [⟨.user, question⟩]
  match question_body msgs1 question useVoice o with
  | .ok m => m
  | .error m => m ++ [⟨.assistant, error_message⟩]

/-- Embedding of app.py lines 110-146: resolve the question from the two
input sources, then process it only if it is truthy (`if user_question:`). -/
def turn_step (msgs : List Turn) (typed : Option String) (useVoice : Bool)
    (clicked : Bool) (rec : RecognizeResult) (o : TurnOracle) : List Turn :=
  match compute_user_question useVoice typed clicked rec with
  | some q => if q == "" then msgs else process_question msgs q useVoice o
  | none => msgs

/-- app.py line 104: the history loop renders
`st.session_state.messages[-5:]`. Python's `[-5:]` is the suffix of length
`min 5 (length)`. -/
def rendered (msgs : List Turn) : List Turn :=
  msgs.drop (msgs.length - 5)

/-- Embedding of the upload handler (app.py lines 80-149): `setup` is the
combined outcome of temp-file creation, `executescript` and database-handle
creation. On a setup exception the outer `except Exception as e` displays
`f"❌ Failed to process SQL file: {e}"` and nothing else runs; otherwise the
per-question logic runs. Returns the session log and the displayed setup
error (if any). -/
def process_upload (msgs : List Turn) (setup : Except String Unit)
    (typed : Option String) (useVoice : Bool) (clicked : Bool)
    (rec : RecognizeResult) (o : TurnOracle) : List Turn × Option String :=
  match setup with
  | .error e => (msgs, some ("❌ Failed to process SQL file: " ++ e))
  | .ok _ => (turn_step msgs typed useVoice clicked rec o, none)

/-- Concrete oracle in which SQL generation succeeds but `db.run` raises. -/
def runFailOracle : TurnOracle where
  get_table_info := .ok "CREATE TABLE users (id INTEGER, name TEXT)"
  invoke := fun _ _ => .ok "SELECT * FROM missing"
  run := fun _ => .error "no such table: missing"
  tts := .ok ()

/-- Concrete oracle in which everything succeeds except text-to-speech. -/
def speakFailOracle : TurnOracle where
  get_table_info := .ok "CREATE TABLE users (id INTEGER, name TEXT)"
  invoke := fun _ _ => .ok "SELECT COUNT(*) FROM users"
  run := fun _ => .ok "[(1,)]"
  tts := .error "pyttsx3 engine init failed"

/-- The generated-SQL chat message never coincides with the fallback text:
the former starts with `H`, the latter with a space. -/
lemma response_message_ne_error_message (qu : String) :
    response_message qu ≠ error_message := by
  intro h
  have h2 : (response_message qu).data = error_message.data := by rw [h]
  have h3 : (response_message qu).data =
      'H' :: (("ere is your SQL query:\n```sql\n".data ++ qu.data) ++ "\n```".data) := rfl
  have h4 : error_message.data =
      ' ' :: "Ask more questions about your database.".data := rfl
  rw [h3, h4] at h2
  injection h2 with h5 _
  exact absurd h5 (by decide)

/-- Whatever the oracle does, processing a question only appends: the result
is the prior log, then the user turn, then some further turns. -/
lemma process_question_extends (msgs : List Turn) (q : String) (v : Bool)
    (o : TurnOracle) :
    ∃ rest, process_question msgs q v o = msgs ++ (⟨Role.user, q⟩ :: rest) := by
  simp only [process_question, question_body]
  cases hg : o.get_table_info with
  | error e => exact ⟨[⟨Role.assistant, error_message⟩], by simp⟩
  | ok s =>
    cases hi : o.invoke s q with
    | error e => exact ⟨[⟨Role.assistant, error_message⟩], by simp [hi]⟩
    | ok qu =>
      cases hr : o.run qu with
      | error e =>
        exact ⟨[⟨Role.assistant, response_message qu⟩, ⟨Role.assistant, error_message⟩],
          by simp [hi, hr]⟩
      | ok r =>
        cases v with
        | false =>
          exact ⟨[⟨Role.assistant, response_message qu⟩], by simp [hi, hr, speak_text]⟩
        | true =>
          cases ht : o.tts with
          | error e =>
            exact ⟨[⟨Role.assistant, response_message qu⟩, ⟨Role.assistant, error_message⟩],
              by simp [hi, hr, speak_text, ht]⟩
          | ok u =>
            exact ⟨[⟨Role.assistant, response_message qu⟩], by simp [hi, hr, speak_text, ht]⟩

/-- C1 (counterexample): on a turn whose query execution raises, the
assistant turn the handler appends carries content
`" Ask more questions about your database."`, which has a leading space and
is therefore not the string `"Ask more questions about your database."`
the claim names. -/
theorem C1_counterexample :
    runFailOracle.run "SELECT * FROM missing" = Except.error "no such table: missing" ∧
    (process_question [] "how many users are there" false runFailOracle).getLast? =
      some ⟨Role.assistant, " Ask more questions about your database."⟩ ∧
    (" Ask more questions about your database." : String) ≠
      "Ask more questions about your database." :=
  ⟨rfl, rfl, by decide⟩

/-- C1 (amended: the fallback content is
`" Ask more questions about your database."`, with the leading space of the
source literal): when schema introspection, SQL generation or query
execution raises, no exception escapes the per-question handler; the log
becomes the prior entries (unchanged, in place), the user turn, possibly
the generated-SQL assistant turn, and exactly one fallback assistant turn
at the end; no appended content carries the underlying error text, only
the question or the generated query. -/
theorem C1_fallback_message (msgs : List Turn) (q : String) (v : Bool)
    (o : TurnOracle)
    (h : (∃ e, o.get_table_info = Except.error e) ∨
         (∃ s e, o.get_table_info = Except.ok s ∧ o.invoke s q = Except.error e) ∨
         (∃ s qu e, o.get_table_info = Except.ok s ∧ o.invoke s q = Except.ok qu ∧
            o.run qu = Except.error e)) :
    ∃ mid,
      process_question msgs q v o =
        msgs ++ [⟨Role.user, q⟩] ++ mid ++ [⟨Role.assistant, error_message⟩] ∧
      (∀ t ∈ mid, ∃ s qu, o.get_table_info = Except.ok s ∧
          o.invoke s q = Except.ok qu ∧ t = ⟨Role.assistant, response_message qu⟩) ∧
      (⟨Role.assistant, error_message⟩ : Turn) ∉ mid := by
  rcases h with ⟨e, he⟩ | ⟨s, e, hs, he⟩ | ⟨s, qu, e, hs, hq, he⟩
  · refine ⟨[], ?_, by simp, by simp⟩
    simp only [process_question, question_body, he]
    simp
  · refine ⟨[], ?_, by simp, by simp⟩
    simp only [process_question, question_body, hs, he]
    simp
  · refine ⟨[⟨Role.assistant, response_message qu⟩], ?_, ?_, ?_⟩
    · simp [process_question, question_body, hs, hq, he]
    · intro t ht
      simp only [List.mem_singleton] at ht
      exact ⟨s, qu, hs, hq, ht⟩
    · simp only [List.mem_singleton]
      intro hcontra
      exact response_message_ne_error_message qu (congrArg Turn.content hcontra).symm

/-- C1 (witness): the amended theorem applied to the concrete
execution-failure oracle. -/
theorem C1_fallback_message_witness :
    ∃ mid,
      process_question [] "how many users are there" false runFailOracle =
        [] ++ [⟨Role.user, "how many users are there"⟩] ++ mid ++
          [⟨Role.assistant, error_message⟩] ∧
      (∀ t ∈ mid, ∃ s qu, runFailOracle.get_table_info = Except.ok s ∧
          runFailOracle.invoke s "how many users are there" = Except.ok qu ∧
          t = ⟨Role.assistant, response_message qu⟩) ∧
      (⟨Role.assistant, error_message⟩ : Turn) ∉ mid :=
  C1_fallback_message [] "how many users are there" false runFailOracle
    (Or.inr (Or.inr ⟨"CREATE TABLE users (id INTEGER, name TEXT)",
      "SELECT * FROM missing", "no such table: missing", rfl, rfl, rfl⟩))

/-- C2: rendering the history displays exactly the suffix of length
`min N 5` of the session log, in original chronological order (it is a
contiguous suffix), and the log itself is exactly the unrendered older
turns followed by the rendered ones — nothing is deleted or reordered. -/
theorem C2_rendered_last_five (msgs : List Turn) :
    rendered msgs <:+ msgs ∧
    (rendered msgs).length = min msgs.length 5 ∧
    msgs.take (msgs.length - 5) ++ rendered msgs = msgs := by
  refine ⟨⟨msgs.take (msgs.length - 5), List.take_append_drop _ _⟩, ?_,
    List.take_append_drop _ _⟩
  simp only [rendered, List.length_drop]
  omega

/-- Every turn the app ever stores has a role drawn from
`{user, assistant}`. -/
lemma all_roles (l : List Turn) :
    l.all (fun t => t.role == Role.user || t.role == Role.assistant) = true := by
  induction l with
  | nil => rfl
  | cons t ts ih => cases h : t.role <;> simp [List.all_cons, h, ih]

/-- C3: one interaction step is append-only — the prior log is a prefix of
the new log, untouched — and every stored turn (in particular every newly
appended one) is a role/content record whose role is `user` or
`assistant`. -/
theorem C3_append_only (msgs : List Turn) (typed : Option String)
    (useVoice clicked : Bool) (rec : RecognizeResult) (o : TurnOracle) :
    msgs <+: turn_step msgs typed useVoice clicked rec o ∧
    ((turn_step msgs typed useVoice clicked rec o).drop msgs.length).all
      (fun t => t.role == Role.user || t.role == Role.assistant) = true := by
  refine ⟨?_, all_roles _⟩
  unfold turn_step
  cases compute_user_question useVoice typed clicked rec with
  | none => exact List.prefix_rfl
  | some q =>
    rcases process_question_extends msgs q useVoice o with ⟨rest, hrest⟩
    cases hq : q == "" with
    | true => simp [hq]
    | false =>
      simp only [hq]
      simp only [Bool.false_eq_true, if_false]
      exact ⟨⟨Role.user, q⟩ :: rest, hrest.symm⟩

/-- C4 (counterexample): the sentinel in the source is `"True"`, not
`"true"`: with `USE_VOICE` set to `"True"` — a value other than `"true"` —
voice is active, and with `USE_VOICE` set to the literal `"true"` voice is
disabled. -/
theorem C4_counterexample :
    use_voice (fun k => if k == "USE_VOICE" then some "True" else none) = true ∧
    ("True" : String) ≠ "true" ∧
    use_voice (fun k => if k == "USE_VOICE" then some "true" else none) = false :=
  ⟨rfl, by decide, rfl⟩

/-- C4 (amended: the sentinel is the case-sensitive string `"True"`): the
flag is read from the `USE_VOICE` environment variable; unset means voice
is active, and any set value other than exactly `"True"` disables voice. -/
theorem C4_flag_semantics (env : String → Option String) :
    (env "USE_VOICE" = none → use_voice env = true) ∧
    (∀ v, env "USE_VOICE" = some v → v ≠ "True" → use_voice env = false) := by
  constructor
  · intro h
    simp [use_voice, h]
  · intro v hv hne
    simp [use_voice, hv, hne]

/-- C4 (witness): the amended flag semantics at two concrete environments,
one with the variable unset and one with it set to `"false"`. -/
theorem C4_flag_semantics_witness :
    use_voice (fun _ => none) = true ∧
    use_voice (fun k => if k == "USE_VOICE" then some "false" else none) = false :=
  ⟨(C4_flag_semantics (fun _ => none)).1 rfl,
   (C4_flag_semantics (fun k => if k == "USE_VOICE" then some "false" else none)).2
     "false" rfl (by decide)⟩

/-- C5: with the voice flag off, `get_voice_input` returns `None` without
opening the microphone or consulting the recognition service (the outcome
is independent of `rec`), `speak_text` returns with no playback and no
possible error, and the voice button is not rendered. -/
theorem C5_voice_off_noop :
    (∀ rec, get_voice_input false rec = ⟨none, false, false, false⟩) ∧
    (∀ text tts, speak_text false text tts = Except.ok false) ∧
    voice_button_rendered false = false :=
  ⟨fun _ => rfl, fun _ _ => rfl, rfl⟩

/-- C6: with voice enabled, the two recognition failure modes are handled
distinctly — `UnknownValueError` warns (and does not report an error),
`RequestError` reports an error (and does not warn) — both return `None`
rather than raising, and in both cases the question for the turn stays
whatever was typed. -/
theorem C6_voice_failure_modes (typed : Option String) :
    get_voice_input true RecognizeResult.unknownValue = ⟨none, true, true, false⟩ ∧
    get_voice_input true RecognizeResult.requestError = ⟨none, true, false, true⟩ ∧
    compute_user_question true typed true RecognizeResult.unknownValue = typed ∧
    compute_user_question true typed true RecognizeResult.requestError = typed :=
  ⟨rfl, rfl, rfl, rfl⟩

/-- C7: the question for a turn is whichever source last produced a
non-empty value: a non-empty recognition result overwrites the typed input,
while a voice attempt returning `None` — and likewise an empty recognition
result — leaves the typed input (if any) as the question. -/
theorem C7_last_nonempty_source (typed : Option String) :
    (∀ v, v ≠ "" →
      compute_user_question true typed true (RecognizeResult.ok v) = some v) ∧
    (∀ rec, (get_voice_input true rec).result = none →
      compute_user_question true typed true rec = typed) ∧
    compute_user_question true typed true (RecognizeResult.ok "") = typed := by
  refine ⟨?_, ?_, rfl⟩
  · intro v hv
    simp [compute_user_question, get_voice_input, hv]
  · intro rec h
    simp [compute_user_question, h]

/-- C7 (witness): with `"typed question"` in the text box, a recognized
`"voice question"` replaces it, and an unrecognized utterance leaves it. -/
theorem C7_last_nonempty_source_witness :
    compute_user_question true (some "typed question") true
      (RecognizeResult.ok "voice question") = some "voice question" ∧
    compute_user_question true (some "typed question") true
      RecognizeResult.unknownValue = some "typed question" :=
  ⟨(C7_last_nonempty_source (some "typed question")).1 "voice question" (by decide),
   (C7_last_nonempty_source (some "typed question")).2.1 RecognizeResult.unknownValue rfl⟩

/-- C8: when setup (script load / database creation) raises with text `e`,
the top-level handler reports `"❌ Failed to process SQL file: " ++ e` —
the underlying error text verbatim inside the generic message — and the
session log is returned untouched: no schema introspection, translation or
execution happens, regardless of the pending question or oracle. -/
theorem C8_setup_failure (msgs : List Turn) (e : String) (typed : Option String)
    (useVoice clicked : Bool) (rec : RecognizeResult) (o : TurnOracle) :
    process_upload msgs (Except.error e) typed useVoice clicked rec o =
      (msgs, some ("❌ Failed to process SQL file: " ++ e)) :=
  rfl

/-- C9: when SQL generation succeeds with `qu` but execution raises, the
log gains exactly three turns in order — the user question, the assistant
turn carrying the generated SQL, and the fallback assistant turn — so the
generated-SQL message, appended before execution, survives the failure. -/
theorem C9_generated_sql_retained (msgs : List Turn) (q s qu e : String)
    (v : Bool) (o : TurnOracle)
    (h1 : o.get_table_info = Except.ok s)
    (h2 : o.invoke s q = Except.ok qu)
    (h3 : o.run qu = Except.error e) :
    process_question msgs q v o =
      msgs ++ [⟨Role.user, q⟩, ⟨Role.assistant, response_message qu⟩,
        ⟨Role.assistant, error_message⟩] := by
  simp [process_question, question_body, h1, h2, h3]

/-- C9 (witness): the three-turn log shape on the concrete
execution-failure oracle. -/
theorem C9_generated_sql_retained_witness :
    process_question [] "how many users are there" true runFailOracle =
      [] ++ [⟨Role.user, "how many users are there"⟩,
        ⟨Role.assistant, response_message "SELECT * FROM missing"⟩,
        ⟨Role.assistant, error_message⟩] :=
  C9_generated_sql_retained [] "how many users are there"
    "CREATE TABLE users (id INTEGER, name TEXT)" "SELECT * FROM missing"
    "no such table: missing" true runFailOracle rfl rfl rfl

/-- Concrete oracle that generates the same query as `speakFailOracle` but
fails at execution instead of at text-to-speech. -/
def countFailOracle : TurnOracle where
  get_table_info := .ok "CREATE TABLE users (id INTEGER, name TEXT)"
  invoke := fun _ _ => .ok "SELECT COUNT(*) FROM users"
  run := fun _ => .error "disk I/O error"
  tts := .ok ()

/-- C10: a `speak_text` failure after successful execution is caught by the
same per-question handler: the log gains the user turn, the generated-SQL
turn and the fallback turn, and it is literally equal to the log produced
by any oracle that generates the same query and fails at execution — the
two failures are indistinguishable in the log. -/
theorem C10_speak_failure_fallback (msgs : List Turn) (q s qu r e : String)
    (o : TurnOracle)
    (h1 : o.get_table_info = Except.ok s)
    (h2 : o.invoke s q = Except.ok qu)
    (h3 : o.run qu = Except.ok r)
    (h4 : o.tts = Except.error e) :
    (process_question msgs q true o =
      msgs ++ [⟨Role.user, q⟩, ⟨Role.assistant, response_message qu⟩,
        ⟨Role.assistant, error_message⟩]) ∧
    ∀ (o2 : TurnOracle) (e2 : String), o2.get_table_info = Except.ok s →
      o2.invoke s q = Except.ok qu → o2.run qu = Except.error e2 →
      process_question msgs q true o = process_question msgs q true o2 := by
  constructor
  · simp [process_question, question_body, speak_text, h1, h2, h3, h4]
  · intro o2 e2 g1 g2 g3
    simp [process_question, question_body, speak_text, h1, h2, h3, h4, g1, g2, g3]

/-- C10 (witness): the text-to-speech-failure oracle produces the same log
as the execution-failure oracle generating the same query. -/
theorem C10_speak_failure_fallback_witness :
    (process_question [] "how many users are there" true speakFailOracle =
      [] ++ [⟨Role.user, "how many users are there"⟩,
        ⟨Role.assistant, response_message "SELECT COUNT(*) FROM users"⟩,
        ⟨Role.assistant, error_message⟩]) ∧
    process_question [] "how many users are there" true speakFailOracle =
      process_question [] "how many users are there" true countFailOracle :=
  ⟨(C10_speak_failure_fallback [] "how many users are there"
      "CREATE TABLE users (id INTEGER, name TEXT)" "SELECT COUNT(*) FROM users"
      "[(1,)]" "pyttsx3 engine init failed" speakFailOracle rfl rfl rfl rfl).1,
   (C10_speak_failure_fallback [] "how many users are there"
      "CREATE TABLE users (id INTEGER, name TEXT)" "SELECT COUNT(*) FROM users"
      "[(1,)]" "pyttsx3 engine init failed" speakFailOracle rfl rfl rfl rfl).2
     countFailOracle "disk I/O error" rfl rfl rfl⟩

end Chatbot
